import Mathlib

/-!
Verification of the scns-conductor scheduler/executor against its
natural-language specification.

The development shallow-embeds the parts of the source that the claims
touch:

* `core/enums.py`              → `JobState`, `ResourceStatus`
* `core/models.py`             → `JobRow`, `AllocationRow`, `resourceAllocationColumns`
* `scheduler/scheduler.py`     → `allocate_and_enqueue_ok`, `schedule_tx_aux`,
                                 `schedule_tx`, `query_allocated_cpus_from_db`,
                                 `sync_resource_cache`
* `worker/repositories/worker_repository.py`
                               → `update_allocation_to_allocated`,
                                 `release_allocation`, `update_job_completion`,
                                 `update_job_failed`
* `scheduler/repositories/cleanup_repository.py`
                               → `get_completed_jobs_with_unreleased_resources`,
                                 `get_stale_reservations`, `cleanup_stale_reservation`
* `worker/executor.py`         → `execute` and its helper stages
* `api/services/job_service.py`→ `cancel_job`
* `core/services/worker_repository.py` and `core/services/resource_manager.py`
                               → `worker_repo_total_cpus`, `rm_get_total_cpus`,
                                 `scheduler_total_cpus_dynamic`

The database `resource_allocations` table declares a boolean `released`
column and *no* tri-state `status` column, while several repository
functions reference `ResourceAllocation.status`.  Python resolves such a
reference against the declared model and raises (`AttributeError` for a
class-level read in a query filter, a pydantic field error for an
instance-level write), so the embedding routes every attribute reference
of those functions through `refColumn` / `setColumn`, which consult the
declared column list.
-/

namespace Conductor

/-- Job lifecycle states, from `core/enums.py` (`JobState`). -/
inductive JobState where
  | PENDING
  | RUNNING
  | COMPLETED
  | FAILED
  | CANCELLED
  deriving DecidableEq, Repr

/-- Tri-state resource lifecycle, from `core/enums.py` (`ResourceStatus`). -/
inductive ResourceStatus where
  | RESERVED
  | ALLOCATED
  | RELEASED
  deriving DecidableEq, Repr

/-- A row of the `jobs` table (`core/models.py`, class `Job`), restricted to
the columns the verified operations read or write.  Times are naturals
(minutes since an arbitrary epoch). -/
structure JobRow where
  id : Nat
  state : JobState
  ntasks_per_node : Nat
  cpus_per_task : Nat
  allocated_cpus : Nat
  submit_time : Nat
  start_time : Option Nat
  end_time : Option Nat
  exit_code : Option String
  error_msg : Option String
  node_list : Option String
  deriving DecidableEq, Repr

/-- `Job.total_cpus_required` property: `ntasks_per_node * cpus_per_task`. -/
def JobRow.total_cpus_required (j : JobRow) : Nat :=
  j.ntasks_per_node * j.cpus_per_task

/-- A row of the `resource_allocations` table (`core/models.py`, class
`ResourceAllocation`).  The declared release tracking is the boolean
`released` plus `released_time`; there is no `status` column. -/
structure AllocationRow where
  job_id : Nat
  allocated_cpus : Nat
  node_name : String
  process_id : Option Nat
  allocation_time : Nat
  released : Bool
  released_time : Option Nat
  deriving DecidableEq, Repr

/-- The columns `core/models.py` declares on `ResourceAllocation` (field
names in declaration order, plus the two metadata timestamps). -/
def resourceAllocationColumns : List String :=
  ["id", "job_id", "allocated_cpus", "node_name", "process_id",
   "allocation_time", "released", "released_time", "created_at", "updated_at"]

/-- Class-level attribute reference, as it happens when a SQLAlchemy query
filter mentions `ResourceAllocation.<name>`: the name is resolved against
the declared model before the query runs, and an undeclared name raises
`AttributeError`. -/
def refColumn (name : String) : Except String Unit :=
  if resourceAllocationColumns.contains name then Except.ok ()
  else Except.error ("AttributeError: " ++ name)

/-- Instance-level field assignment `allocation.<name> = v`: the
pydantic-backed model raises on assignment to an undeclared field. -/
def setColumn (name : String) : Except String Unit :=
  if resourceAllocationColumns.contains name then Except.ok ()
  else Except.error ("ValueError: object has no field " ++ name)

/-- The durable store: the `jobs` and `resource_allocations` tables. -/
structure Database where
  jobs : List JobRow
  allocations : List AllocationRow
  deriving DecidableEq, Repr

/-- Durable store plus the ephemeral pieces the claims mention: the
`resource:allocated_cpus` Redis counter and the dispatch queue (as the
list of enqueued job ids). -/
structure SysState where
  db : Database
  cache : Int
  queue : List Nat
  deriving DecidableEq, Repr

/-! ## Worker repository (`worker/repositories/worker_repository.py`) -/

/-- `WorkerRepository.update_allocation_to_allocated`: query the allocation
by `job_id` (a declared column); if a row is found, execute
`allocation.status = ResourceStatus.ALLOCATED` — an assignment to a field
the model does not declare.  With no row it logs a warning and returns
`None` without touching anything. -/
def update_allocation_to_allocated (db : Database) (jobId : Nat) :
    Except String (Database × Option AllocationRow) := do
  let _ ← refColumn "job_id"
  match db.allocations.find? (fun a => a.job_id == jobId) with
  | some a => do
      let _ ← setColumn "status"
      -- only reachable if `status` were a declared column
      Except.ok (db, some a)
  | none => Except.ok (db, none)

/-- `WorkerRepository.create_allocation_as_allocated`: constructs a
`ResourceAllocation` passing a `status=` keyword.  The pydantic-backed
constructor drops the undeclared keyword, so the row is created with the
declared defaults (`released = False`, `process_id = None`). -/
def create_allocation_as_allocated (db : Database) (jobId cpus : Nat)
    (nodeName : String) (now : Nat) : Database :=
  let row : AllocationRow :=
    { job_id := jobId, allocated_cpus := cpus, node_name := nodeName,
      process_id := none, allocation_time := now,
      released := false, released_time := none }
  { db with allocations := db.allocations ++ [row] }

/-- `WorkerRepository.release_allocation`: the query filter references
`ResourceAllocation.job_id` and then `ResourceAllocation.status` — the
latter is not a declared column, so query construction raises before any
row is read or written.  The continuation (only reachable if `status`
resolved) would mark the first unreleased row released. -/
def release_allocation (db : Database) (jobId : Nat) :
    Except String (Database × Option AllocationRow) := do
  let _ ← refColumn "job_id"
  let _ ← refColumn "status"
  let _ ← setColumn "status"
  Except.ok (db, db.allocations.find? (fun a => a.job_id == jobId))

/-- `WorkerRepository.update_job_completion`: sets the job COMPLETED when
the exit code is zero and FAILED otherwise, stamps `end_time`, writes the
`"<code>:0"` exit string and an error message on failure.  All referenced
columns exist on `Job`, so this operation works. -/
def update_job_completion (db : Database) (jobId : Nat) (exitCode : Int)
    (now : Nat) : Database × Bool :=
  match db.jobs.find? (fun j => j.id == jobId) with
  | none => (db, false)
  | some _ =>
      let jobs' := db.jobs.map (fun j =>
        if j.id == jobId then
          { j with
              state := if exitCode == 0 then JobState.COMPLETED else JobState.FAILED,
              end_time := some now,
              exit_code := some (toString exitCode ++ ":0"),
              error_msg := if exitCode == 0 then j.error_msg
                           else some ("Exited with code " ++ toString exitCode) }
        else j)
      ({ db with jobs := jobs' }, true)

/-- `WorkerRepository.update_job_failed`: marks the job FAILED with the
given message and exit-code string (default `"-1:0"`). -/
def update_job_failed (db : Database) (jobId : Nat) (errorMsg : String)
    (exitCode : String) (now : Nat) : Database × Bool :=
  match db.jobs.find? (fun j => j.id == jobId) with
  | none => (db, false)
  | some _ =>
      let jobs' := db.jobs.map (fun j =>
        if j.id == jobId then
          { j with
              state := JobState.FAILED,
              end_time := some now,
              error_msg := some errorMsg,
              exit_code := some exitCode }
        else j)
      ({ db with jobs := jobs' }, true)

/-! ## Cleanup repository (`scheduler/repositories/cleanup_repository.py`) -/

/-- `CleanupRepository.get_completed_jobs_with_unreleased_resources`: the
query filter references `ResourceAllocation.status`, which is not a
declared column, so query construction raises on every input.  The
continuation (unreachable) would return the allocations joined to jobs in
a terminal state. -/
def get_completed_jobs_with_unreleased_resources (db : Database) :
    Except String (List AllocationRow) := do
  let _ ← refColumn "status"
  Except.ok (db.allocations.filter (fun a =>
    (db.jobs.find? (fun j => j.id == a.job_id)).any (fun j =>
      j.state == JobState.COMPLETED || j.state == JobState.FAILED ||
        j.state == JobState.CANCELLED)))

/-- `CleanupRepository.get_stale_reservations`: the query filter references
`ResourceAllocation.status`, `ResourceAllocation.allocation_time` and
`Job.state`; the `status` reference fails to resolve, so query
construction raises on every input.  The continuation (unreachable, and
with the inexpressible RESERVED condition dropped) keeps the resolvable
conditions: allocation older than the threshold and job RUNNING. -/
def get_stale_reservations (db : Database) (threshold : Nat) :
    Except String (List AllocationRow) := do
  let _ ← refColumn "status"
  let _ ← refColumn "allocation_time"
  Except.ok (db.allocations.filter (fun a =>
    decide (a.allocation_time < threshold) &&
    (db.jobs.find? (fun j => j.id == a.job_id)).any (fun j =>
      j.state == JobState.RUNNING)))

/-- Error message used by `CleanupRepository.cleanup_stale_reservation`. -/
def staleReservationMsg : String := "reservation timed out, queue lost or worker not starting"

/-- `CleanupRepository.cleanup_stale_reservation`: in source order, the
job row is set FAILED with `end_time`, `error_msg` and exit code
`"-3:0"` (all declared `Job` columns), and then
`allocation.status = ResourceStatus.RELEASED` is executed — an assignment
to an undeclared field, which raises before `released_time` is stamped. -/
def cleanup_stale_reservation (db : Database) (a : AllocationRow) (now : Nat) :
    Except String Database := do
  let db1 : Database :=
    { db with jobs := db.jobs.map (fun j =>
        if j.id == a.job_id then
          { j with
              state := JobState.FAILED,
              end_time := some now,
              error_msg := some staleReservationMsg,
              exit_code := some "-3:0" }
        else j) }
  let _ ← setColumn "status"
  Except.ok db1

/-- `StaleReservationCleanupStrategy._do_cleanup`: fetch the stale
reservations and clean each one. -/
def stale_reservation_do_cleanup (db : Database) (now maxAgeMinutes : Nat) :
    Except String (Database × Nat) := do
  let rs ← get_stale_reservations db (now - maxAgeMinutes)
  let db' ← rs.foldlM (fun acc a => cleanup_stale_reservation acc a now) db
  Except.ok (db', rs.length)

/-- `BaseCleanupStrategy.execute` applied to the stale-reservation
strategy: `_do_cleanup` runs inside try/except; an exception rolls the
session back (durable state unchanged) and yields an error result. -/
def stale_reservation_cleanup_tick (db : Database) (now maxAgeMinutes : Nat) :
    Database × Bool :=
  match stale_reservation_do_cleanup db now maxAgeMinutes with
  | Except.ok (db', _) => (db', true)
  | Except.error _ => (db, false)

/-! ## Scheduler (`scheduler/scheduler.py`) -/

/-- `JobScheduler._get_allocated_cpus` /
`ResourceManager._query_allocated_cpus_from_db`: the database recount of
allocated CPUs, `SELECT sum(allocated_cpus) WHERE NOT released`. -/
def query_allocated_cpus_from_db (allocs : List AllocationRow) : Nat :=
  ((allocs.filter (fun a => !a.released)).map (fun a => a.allocated_cpus)).sum

/-- `JobScheduler.sync_resource_cache` / `ResourceManager.sync_cache_from_db`:
recompute the counter from the database and store it in the cache. -/
def sync_resource_cache (s : SysState) : SysState :=
  { s with cache := (query_allocated_cpus_from_db s.db.allocations : Int) }

/-- The successful path of `JobScheduler._allocate_and_enqueue`: insert the
allocation row (`released = False`), set the job RUNNING with `start_time`
and `node_list`, flush, `INCRBY` the `resource:allocated_cpus` cache by
`cpus`, and enqueue the dispatch token. -/
def allocate_and_enqueue_ok (s : SysState) (job : JobRow) (cpus : Nat)
    (now : Nat) (nodeName : String) : SysState :=
  let row : AllocationRow :=
    { job_id := job.id, allocated_cpus := cpus, node_name := nodeName,
      process_id := none, allocation_time := now,
      released := false, released_time := none }
  let jobs' := s.db.jobs.map (fun j =>
    if j.id == job.id then
      { j with
          state := JobState.RUNNING,
          start_time := some now,
          node_list := some nodeName }
    else j)
  { db := { jobs := jobs', allocations := s.db.allocations ++ [row] },
    cache := s.cache + (cpus : Int),
    queue := s.queue ++ [job.id] }

/-- Ordering used by the PENDING query's `ORDER BY submit_time`. -/
def submitLE (a b : JobRow) : Prop := a.submit_time ≤ b.submit_time

instance : DecidableRel submitLE := fun a b => Nat.decLe a.submit_time b.submit_time

instance : IsTotal JobRow submitLE := ⟨fun a b => Nat.le_total a.submit_time b.submit_time⟩

instance : IsTrans JobRow submitLE :=
  ⟨fun _ _ _ h h' => Nat.le_trans h h'⟩

/-- The query of step 3 of `JobScheduler.schedule`: PENDING jobs ordered by
`submit_time` ascending. -/
def pending_jobs_by_submit_time (db : Database) : List JobRow :=
  List.insertionSort submitLE (db.jobs.filter (fun j => j.state == JobState.PENDING))

/-- Result of one `schedule()` pass. -/
structure PassResult where
  vstate : SysState
  remaining : Int
  poisoned : Bool
  attempted : List Nat
  scheduled : List JobRow
  deriving Repr

/-- The step-4 loop of `JobScheduler.schedule`, with transaction semantics
made explicit.  `vstate` is the session view of the state; `ff j` injects
a database-flush failure for job id `j` (`_allocate_and_enqueue` catches
the exception and returns False).  Once a flush has failed the session
transaction is doomed: every later flush raises as well (`poisoned`), and
the cache increment, the enqueue and the decrement of the local
`available_cpus` — all sequenced after the flush — do not happen for such
jobs. -/
def schedule_tx_aux (ff : Nat → Bool) (now : Nat) (nodeName : String) :
    List JobRow → SysState → Int → Bool → PassResult
  | [], v, avail, poisoned =>
      { vstate := v, remaining := avail, poisoned := poisoned,
        attempted := [], scheduled := [] }
  | job :: rest, v, avail, poisoned =>
      let need := job.total_cpus_required
      if (need : Int) ≤ avail then
        if poisoned || ff job.id then
          let r := schedule_tx_aux ff now nodeName rest v avail true
          { r with attempted := job.id :: r.attempted }
        else
          let v' := allocate_and_enqueue_ok v job need now nodeName
          let r := schedule_tx_aux ff now nodeName rest v' (avail - (need : Int)) false
          { r with attempted := job.id :: r.attempted, scheduled := job :: r.scheduled }
      else
        schedule_tx_aux ff now nodeName rest v avail poisoned

/-- Outcome of a whole `schedule()` call. -/
structure ScheduleOutcome where
  state : SysState
  scheduledCount : Nat
  raised : Bool
  attempted : List Nat
  deriving Repr

/-- `JobScheduler.schedule` for a given dynamic total: `available` is
`total - cache`, the PENDING jobs are processed in `submit_time` order,
and the single `session.commit()` at the end either persists every flushed
change (clean pass) or — when some flush failed — raises, whereupon
`get_session` rolls the session back and the durable store is left as it
was.  Cache increments and enqueues already performed are not transactional
and survive either way. -/
def schedule_tx (s : SysState) (total : Int) (ff : Nat → Bool) (now : Nat)
    (nodeName : String) : ScheduleOutcome :=
  let pending := pending_jobs_by_submit_time s.db
  let avail := total - s.cache
  let r := schedule_tx_aux ff now nodeName pending s avail false
  if r.poisoned then
    { state := { r.vstate with db := s.db },
      scheduledCount := r.scheduled.length, raised := true,
      attempted := r.attempted }
  else
    { state := r.vstate, scheduledCount := r.scheduled.length,
      raised := false, attempted := r.attempted }

/-! ## Worker registry capacity (`core/services/worker_repository.py`,
`core/services/resource_manager.py`, `scheduler/scheduler.py`) -/

/-- A parsed `worker:*` K/V record (the fields capacity accounting reads). -/
structure WorkerRecord where
  worker_id : String
  cpus : Nat
  deriving DecidableEq, Repr

/-- `WorkerRepository.get_total_cpus`: sum of `cpus` over `find_all()`. -/
def worker_repo_total_cpus (ws : List WorkerRecord) : Nat :=
  (ws.map (fun w => w.cpus)).sum

/-- `ResourceManager.get_total_cpus`: the worker-record sum, falling back
to the configured `TOTAL_CPUS` when that sum is zero. -/
def rm_get_total_cpus (ws : List WorkerRecord) (settingsTotal : Nat) : Nat :=
  let t := worker_repo_total_cpus ws
  if t = 0 then settingsTotal else t

/-- `JobScheduler._get_total_cpus_dynamic`: 0 when no `worker:*` keys
exist, otherwise the sum of the advertised `cpus` fields. -/
def scheduler_total_cpus_dynamic (ws : List WorkerRecord) : Nat :=
  if ws.isEmpty then 0 else worker_repo_total_cpus ws

/-- `JobScheduler.schedule` end to end: read the dynamic total; when it is
zero (no active workers) skip the tick entirely; otherwise run the pass. -/
def schedule_run (s : SysState) (ws : List WorkerRecord) (ff : Nat → Bool)
    (now : Nat) (nodeName : String) : ScheduleOutcome :=
  let total := scheduler_total_cpus_dynamic ws
  if total = 0 then
    { state := s, scheduledCount := 0, raised := false, attempted := [] }
  else
    schedule_tx s (total : Int) ff now nodeName

/-! ## Executor (`worker/executor.py`)

`execute(job_id)` is modelled stage by stage.  Two oracles stand for the
external world: `prepareOk` says whether `_prepare_environment` (pure
filesystem work, no durable or cache effect) succeeds, and `runResult`
is `some code` when the spawned child is waited to completion with exit
code `code` (the timeout path records `-1`) and `none` when an exception
escapes the spawn/wait block.  `store_pid` (`shared/process_utils.py`)
only logs, and the default middlewares
(`worker/middleware/{logging,metrics,resource_monitoring}.py`) never touch
the database or the cache, so neither appears in the state transit. -/

/-- `JobExecutor._mark_resources_allocated` (PROMOTE): promote the
reservation via `update_allocation_to_allocated`; if no row exists, create
one with `create_allocation_as_allocated`.  An exception rolls the session
back and propagates. -/
def mark_resources_allocated (s : SysState) (jobId cpus : Nat) (now : Nat)
    (nodeName : String) : SysState × Option String :=
  match update_allocation_to_allocated s.db jobId with
  | Except.error e => (s, some e)
  | Except.ok (db', some _) => ({ s with db := db' }, none)
  | Except.ok (db', none) =>
      ({ s with db := create_allocation_as_allocated db' jobId cpus nodeName now }, none)

/-- `JobExecutor._release_resources` (RELEASE): release the allocation via
`release_allocation`.  An exception rolls the session back and propagates
out of `_cleanup`. -/
def release_resources (s : SysState) (jobId : Nat) : SysState × Option String :=
  match release_allocation s.db jobId with
  | Except.error e => (s, some e)
  | Except.ok (db', _) => ({ s with db := db' }, none)

/-- `JobExecutor._cleanup`: always `_release_resources` first; then, if the
context recorded an error, `_mark_failed`; else, if an exit code was
recorded, `_update_completion`.  An exception from `_release_resources`
skips the rest and propagates (it is raised inside the `finally`). -/
def cleanup_stage (s : SysState) (jobId : Nat) (hasError : Bool)
    (errMsg : String) (exitCode : Option Int) (now : Nat) :
    SysState × Option String :=
  match release_resources s jobId with
  | (s', some e) => (s', some e)
  | (s', none) =>
      if hasError then
        let r := update_job_failed s'.db jobId errMsg "-1:0" now
        ({ s' with db := r.1 }, none)
      else
        match exitCode with
        | some c =>
            let r := update_job_completion s'.db jobId c now
            ({ s' with db := r.1 }, none)
        | none => (s', none)

/-- Error message stand-in for `str(context.error)`. -/
def executorErrMsg : String := "execution error"

/-- `JobExecutor.execute`: LOAD the job (a missing job raises, landing in
the except branch); exit early when the state is not RUNNING; otherwise
PROMOTE, PREPARE, then run the body inside
`ResourceManagerWrapper.allocate_for_job`, whose entry `INCRBY`s the cache
by `job.allocated_cpus` and whose `finally` `DECRBY`s it again; the outer
`finally` always runs `_cleanup`.  The returned `Option String` is the
exception escaping the call, if any. -/
def execute (s : SysState) (jobId : Nat) (prepareOk : Bool)
    (runResult : Option Int) (now : Nat) (nodeName : String) :
    SysState × Option String :=
  match s.db.jobs.find? (fun j => j.id == jobId) with
  | none => cleanup_stage s jobId true executorErrMsg none now
  | some job =>
      if job.state == JobState.RUNNING then
        match mark_resources_allocated s jobId job.allocated_cpus now nodeName with
        | (s1, some _) => cleanup_stage s1 jobId true executorErrMsg none now
        | (s1, none) =>
            if prepareOk then
              let s2 := { s1 with cache := s1.cache + (job.allocated_cpus : Int) }
              match runResult with
              | some code =>
                  let s3 := { s2 with cache := s2.cache - (job.allocated_cpus : Int) }
                  cleanup_stage s3 jobId false executorErrMsg (some code) now
              | none =>
                  let s3 := { s2 with cache := s2.cache - (job.allocated_cpus : Int) }
                  cleanup_stage s3 jobId true executorErrMsg none now
            else
              cleanup_stage s1 jobId true executorErrMsg none now
      else
        cleanup_stage s jobId false executorErrMsg none now

/-! ## API cancel (`api/services/job_service.py`) -/

/-- The terminal job states. -/
def terminalStates : List JobState :=
  [JobState.COMPLETED, JobState.FAILED, JobState.CANCELLED]

/-- Update the first element satisfying `p` (the `scalar_one_or_none`
row-update pattern; `job_id` is unique on `resource_allocations`). -/
def updateFirst {α : Type} (p : α → Bool) (f : α → α) : List α → List α
  | [] => []
  | x :: xs => if p x then f x :: xs else x :: updateFirst p f xs

/-- The job-row update cancel performs: state CANCELLED, `end_time`
stamped, and exit code `"-1:15"` when the stored exit code is still empty
(`None` or `""` are both falsy in the source's `if not job.exit_code`). -/
def cancelJobUpdate (jobId now : Nat) (x : JobRow) : JobRow :=
  if x.id == jobId then
    { x with
        state := JobState.CANCELLED,
        end_time := some now,
        exit_code := if x.exit_code == none || x.exit_code == some "" then
                       some "-1:15"
                     else x.exit_code }
  else x

/-- The allocation update cancel performs: the job's unreleased allocation
row (`scalar_one_or_none` under the unique `job_id` constraint), if any,
is marked released with `released_time`. -/
def cancelAllocRelease (jobId now : Nat) (allocs : List AllocationRow) :
    List AllocationRow :=
  updateFirst (fun a => a.job_id == jobId && !a.released)
    (fun a => { a with released := true, released_time := some now })
    allocs

/-- `JobService.cancel_job`: unknown id raises `JobNotFoundException`; a
job already terminal returns immediately (idempotent no-op); otherwise the
process group is signalled (no durable effect), the job row is updated via
`cancelJobUpdate` and the allocation via `cancelAllocRelease`.  This path
uses the declared boolean `released` column, so it works against the
schema. -/
def cancel_job (db : Database) (jobId : Nat) (now : Nat) :
    Except String Database :=
  match db.jobs.find? (fun j => j.id == jobId) with
  | none => Except.error "JobNotFound"
  | some job =>
      if terminalStates.contains job.state then Except.ok db
      else
        Except.ok { jobs := db.jobs.map (cancelJobUpdate jobId now),
                    allocations := cancelAllocRelease jobId now db.allocations }

/-! ## Spec-side cache invariant (for comparison against the source)

The spec states the cache invariant over the tri-state lifecycle:
`cache(t) = Σ allocated_cpus WHERE status = ALLOCATED`.  To compare it with
the source's recount (which filters on the boolean `released` column), an
allocation is tagged with its lifecycle status and projected onto the
declared schema: the scheduler inserts reservations with
`released = False` (`scheduler/scheduler.py`, `_allocate_and_enqueue`),
and the release paths that work against the schema set `released = True`,
so `released` is `true` exactly for RELEASED rows. -/

/-- An allocation row with its spec-level lifecycle status attached. -/
structure TaggedAllocation where
  job_id : Nat
  cpus : Nat
  status : ResourceStatus
  deriving DecidableEq, Repr

/-- The boolean `released` column value corresponding to a lifecycle
status. -/
def ResourceStatus.releasedBool : ResourceStatus → Bool
  | ResourceStatus.RELEASED => true
  | _ => false

/-- Projection of a tagged allocation onto the declared schema. -/
def TaggedAllocation.toRow (t : TaggedAllocation) : AllocationRow :=
  { job_id := t.job_id, allocated_cpus := t.cpus, node_name := "node",
    process_id := none, allocation_time := 0,
    released := t.status.releasedBool, released_time := none }

/-- The spec's invariant value: Σ `allocated_cpus` over rows whose status
is ALLOCATED. -/
def specAllocatedSum (l : List TaggedAllocation) : Nat :=
  ((l.filter (fun t => t.status == ResourceStatus.ALLOCATED)).map
    (fun t => t.cpus)).sum

/-- Σ `allocated_cpus` over rows whose status is RESERVED. -/
def specReservedSum (l : List TaggedAllocation) : Nat :=
  ((l.filter (fun t => t.status == ResourceStatus.RESERVED)).map
    (fun t => t.cpus)).sum

/-! ## Concrete fixtures -/

/-- A pending job asking for `1 × 2` CPUs. -/
def jobPending1 : JobRow :=
  { id := 1, state := JobState.PENDING, ntasks_per_node := 1, cpus_per_task := 2,
    allocated_cpus := 2, submit_time := 3, start_time := none, end_time := none,
    exit_code := some "", error_msg := none, node_list := none }

/-- Initial system state: one pending job, empty cache and queue. -/
def state0 : SysState :=
  { db := { jobs := [jobPending1], allocations := [] }, cache := 0, queue := [] }

/-- The same job after the scheduler set it RUNNING. -/
def jobRunning1 : JobRow :=
  { jobPending1 with
      state := JobState.RUNNING, start_time := some 10, node_list := some "node1" }

/-- The reservation row the scheduler inserts for `jobPending1`. -/
def allocReserved1 : AllocationRow :=
  { job_id := 1, allocated_cpus := 2, node_name := "node1", process_id := none,
    allocation_time := 10, released := false, released_time := none }

/-- System state right after the scheduler reserved job 1: job RUNNING,
reservation row unreleased, dispatch token enqueued, cache incremented. -/
def state1 : SysState :=
  { db := { jobs := [jobRunning1], allocations := [allocReserved1] },
    cache := 2, queue := [1] }

/-! ## Claim C1 -/

/-- Claim C1, counterexample: scheduling job 1 from `state0`
(`_allocate_and_enqueue`, success path) changes the allocated-CPUs cache
counter — step 4 of the source executes
`redis.incrby(REDIS_KEY_ALLOCATED_CPUS, cpus)` — whereas the claim says
the cache is left unchanged by the scheduling action. -/
theorem reserve_changes_cache_cex :
    (allocate_and_enqueue_ok state0 jobPending1 2 10 "node1").cache ≠ state0.cache := by
  decide

/-- Claim C1, amended: the scheduling action increments the allocated-CPUs
cache by `need` (in addition to the scheduler decrementing its local
`available`), and the inserted allocation row is an unreleased
reservation; so reserved CPUs are counted in the cache. -/
theorem reserve_increments_cache (s : SysState) (job : JobRow) (cpus now : Nat)
    (nn : String) :
    (allocate_and_enqueue_ok s job cpus now nn).cache = s.cache + (cpus : Int)
    ∧ (allocate_and_enqueue_ok s job cpus now nn).db.allocations
        = s.db.allocations ++
          [{ job_id := job.id, allocated_cpus := cpus, node_name := nn,
             process_id := none, allocation_time := now,
             released := false, released_time := none }]
    ∧ (allocate_and_enqueue_ok s job cpus now nn).queue = s.queue ++ [job.id] := by
  refine ⟨rfl, rfl, rfl⟩

/-! ## Claim C2 -/

/-- Claim C2, counterexample: `state1` is produced from `state0` by the
scheduler's own reservation step, so its single allocation row is in
RESERVED status (inserted by the scheduler, never promoted).  After
`sync_resource_cache` the cache holds 2 — the row's `allocated_cpus` —
while the claim's value, Σ over rows with status ALLOCATED, is 0. -/
theorem sync_counts_reserved_cex :
    allocate_and_enqueue_ok state0 jobPending1 2 10 "node1" = state1
    ∧ (sync_resource_cache state1).cache = 2
    ∧ specAllocatedSum [{ job_id := 1, cpus := 2, status := ResourceStatus.RESERVED }] = 0
    ∧ (sync_resource_cache state1).cache
        ≠ (specAllocatedSum [{ job_id := 1, cpus := 2, status := ResourceStatus.RESERVED }] : Int) := by
  refine ⟨by decide, by decide, by decide, by decide⟩

/-- Claim C2, amended: after `sync_resource_cache` the cache equals
Σ `allocated_cpus` over the rows with `released = false` — and on
status-tagged rows that recount equals the spec's ALLOCATED sum *plus*
the RESERVED sum: rows still in RESERVED status contribute their full
`allocated_cpus`. -/
theorem sync_cache_unreleased_sum :
    (∀ s : SysState,
      (sync_resource_cache s).cache
        = (query_allocated_cpus_from_db s.db.allocations : Int))
    ∧ (∀ l : List TaggedAllocation,
      query_allocated_cpus_from_db (l.map TaggedAllocation.toRow)
        = specAllocatedSum l + specReservedSum l) := by
  constructor
  · intro s
    rfl
  · intro l
    induction l with
    | nil => rfl
    | cons t ts ih =>
        obtain ⟨jid, c, st⟩ := t
        cases st <;>
          simp [query_allocated_cpus_from_db, specAllocatedSum, specReservedSum,
            TaggedAllocation.toRow, ResourceStatus.releasedBool,
            List.filter_cons] at ih ⊢ <;>
          omega

/-! ## Claim C3 -/

/-- Evaluation helpers: the `status` references against the declared
columns. -/
theorem refColumn_status_err : refColumn "status" = Except.error "AttributeError: status" := rfl

/-- The `status` field assignment against the declared columns. -/
theorem setColumn_status_err :
    setColumn "status" = Except.error "ValueError: object has no field status" := rfl

/-- Claim C3, counterexample: on a database with no allocation row for the
job, `update_allocation_to_allocated` returns `None` without raising (the
status assignment is never reached), so "for every input, each of these
operations errors on the attribute access" fails at this input. -/
theorem status_ops_error_cex :
    update_allocation_to_allocated { jobs := [], allocations := [] } 1
      = Except.ok ({ jobs := [], allocations := [] }, none) := by
  rfl

/-- Claim C3, amended: the declared `ResourceAllocation` model has a
boolean `released` column and no `status` column; consequently
`release_allocation`, `get_completed_jobs_with_unreleased_resources` and
`get_stale_reservations` — whose query filters reference
`ResourceAllocation.status` — error on every input, and
`update_allocation_to_allocated` errors exactly when an allocation row for
the job exists (the only case in which the promotion would act) and
returns `None` with nothing changed otherwise.  No operation ever performs
the RESERVED→ALLOCATED→RELEASED transition. -/
theorem status_ops_error (db : Database) (jobId threshold : Nat) :
    release_allocation db jobId = Except.error "AttributeError: status"
    ∧ get_completed_jobs_with_unreleased_resources db
        = Except.error "AttributeError: status"
    ∧ get_stale_reservations db threshold = Except.error "AttributeError: status"
    ∧ update_allocation_to_allocated db jobId
        = (if (db.allocations.find? (fun a => a.job_id == jobId)).isSome then
             Except.error "ValueError: object has no field status"
           else Except.ok (db, none))
    ∧ resourceAllocationColumns.contains "status" = false
    ∧ resourceAllocationColumns.contains "released" = true := by
  refine ⟨rfl, rfl, rfl, ?_, rfl, rfl⟩
  cases h : db.allocations.find? (fun a => a.job_id == jobId) with
  | none =>
      simp only [update_allocation_to_allocated, h, Option.isSome_none, Bool.false_eq_true,
        if_false]
      rfl
  | some a =>
      simp only [update_allocation_to_allocated, h, Option.isSome_some, if_true]
      rfl

/-! ## Claim C4 -/

/-- The `finally`-block cleanup never mutates anything: its first step,
`_release_resources`, raises on the undeclared `status` column before any
row is read or written, the session is rolled back, and the exception
skips the job-state update and propagates. -/
theorem cleanup_stage_frame (s : SysState) (jobId : Nat) (hasError : Bool)
    (errMsg : String) (exitCode : Option Int) (now : Nat) :
    cleanup_stage s jobId hasError errMsg exitCode now
      = (s, some "AttributeError: status") := rfl

/-- Claim C4: when the loaded job's state is not RUNNING, `execute`
changes nothing — the job rows, the allocation rows and the CPU cache are
exactly as before the call, for every oracle behaviour.  (The early return
lands in the `finally` cleanup, whose `release_allocation` raises on the
undeclared `status` column before touching any state, so the call escapes
with an exception but performs no mutation.) -/
theorem execute_non_running_frame (s : SysState) (jobId : Nat)
    (prepareOk : Bool) (runResult : Option Int) (now : Nat) (nn : String)
    (job : JobRow)
    (hfind : s.db.jobs.find? (fun j => j.id == jobId) = some job)
    (hstate : job.state ≠ JobState.RUNNING) :
    (execute s jobId prepareOk runResult now nn).1 = s := by
  have hb : (job.state == JobState.RUNNING) = false := by
    simpa using hstate
  unfold execute
  rw [hfind]
  simp [hb, cleanup_stage_frame]

/-- Claim C4, witness: a concrete call on the PENDING job of `state0`. -/
theorem execute_non_running_frame_witness :
    (execute state0 1 true (some 0) 10 "node1").1 = state0
    ∧ jobPending1.state ≠ JobState.RUNNING :=
  ⟨execute_non_running_frame state0 1 true (some 0) 10 "node1" jobPending1
      (by decide) (by decide),
   by decide⟩

/-! ## Claim C5 -/

/-- Claim C5 is violated by the code: on the normal scheduled input —
job 1 RUNNING with its reservation row present (`state1`) — the call
reaches PROMOTE, where `update_allocation_to_allocated` raises on the
undeclared `status` field; the `finally` cleanup's `release_allocation`
then raises as well, so the allocation row is never set released, no
`released_time` is stamped, the cache is never touched, and the exception
escapes the call.  The release therefore occurs on *no* exit path, against
the claim that it occurs on every one. -/
theorem execute_release_broken :
    execute state1 1 true (some 0) 20 "node1"
      = (state1, some "AttributeError: status")
    ∧ (execute state1 1 true (some 0) 20 "node1").1.db.allocations.map
        (fun a => a.released) = [false]
    ∧ (execute state1 1 true (some 0) 20 "node1").1.db.allocations.map
        (fun a => a.released_time) = [none]
    ∧ (execute state1 1 true (some 0) 20 "node1").1.cache = state1.cache := by
  refine ⟨by rfl, by rfl, by rfl, by rfl⟩

/-! ## Claim C6 -/

/-- Total CPU requirement of a list of jobs. -/
def needSum (l : List JobRow) : Nat :=
  (l.map JobRow.total_cpus_required).sum

/-- With no flush failures the pass never poisons the transaction. -/
theorem schedule_aux_no_poison (now : Nat) (nn : String) :
    ∀ (l : List JobRow) (v : SysState) (a : Int),
      (schedule_tx_aux (fun _ => false) now nn l v a false).poisoned = false := by
  intro l
  induction l with
  | nil => intro v a; rfl
  | cons j t ih =>
      intro v a
      simp only [schedule_tx_aux]
      split
      · simpa using ih (allocate_and_enqueue_ok v j j.total_cpus_required now nn)
          (a - (j.total_cpus_required : Int))
      · exact ih v a

/-- The failure-free pass is compositional: processing `l1 ++ l2` is
processing `l1`, then processing `l2` from the session state and remaining
count `l1` left behind. -/
theorem schedule_aux_append (now : Nat) (nn : String) (l1 l2 : List JobRow) :
    ∀ (v : SysState) (a : Int),
      schedule_tx_aux (fun _ => false) now nn (l1 ++ l2) v a false
        = { vstate := (schedule_tx_aux (fun _ => false) now nn l2
              (schedule_tx_aux (fun _ => false) now nn l1 v a false).vstate
              (schedule_tx_aux (fun _ => false) now nn l1 v a false).remaining
              false).vstate,
            remaining := (schedule_tx_aux (fun _ => false) now nn l2
              (schedule_tx_aux (fun _ => false) now nn l1 v a false).vstate
              (schedule_tx_aux (fun _ => false) now nn l1 v a false).remaining
              false).remaining,
            poisoned := false,
            attempted := (schedule_tx_aux (fun _ => false) now nn l1 v a false).attempted
              ++ (schedule_tx_aux (fun _ => false) now nn l2
                    (schedule_tx_aux (fun _ => false) now nn l1 v a false).vstate
                    (schedule_tx_aux (fun _ => false) now nn l1 v a false).remaining
                    false).attempted,
            scheduled := (schedule_tx_aux (fun _ => false) now nn l1 v a false).scheduled
              ++ (schedule_tx_aux (fun _ => false) now nn l2
                    (schedule_tx_aux (fun _ => false) now nn l1 v a false).vstate
                    (schedule_tx_aux (fun _ => false) now nn l1 v a false).remaining
                    false).scheduled } := by
  induction l1 with
  | nil =>
      intro v a
      simp only [List.nil_append, schedule_tx_aux, List.append_nil]
      have hp := schedule_aux_no_poison now nn l2 v a
      cases hr : schedule_tx_aux (fun _ => false) now nn l2 v a false with
      | mk vs rem p att sch => simp_all
  | cons j t ih =>
      intro v a
      simp only [List.cons_append, schedule_tx_aux]
      split
      · simp only [Bool.false_or, if_neg (Bool.false_ne_true), List.append_eq]
        rw [ih]
        simp
      · simp only [List.append_eq]
        exact ih v a

/-- The loop's local `available` decreases by exactly the requirement of
each scheduled job: on exit it is the initial count minus the total
requirement of the scheduled jobs. -/
theorem schedule_aux_remaining (now : Nat) (nn : String) :
    ∀ (l : List JobRow) (v : SysState) (a : Int),
      (schedule_tx_aux (fun _ => false) now nn l v a false).remaining
        = a - (needSum (schedule_tx_aux (fun _ => false) now nn l v a false).scheduled : Int) := by
  intro l
  induction l with
  | nil => intro v a; simp [schedule_tx_aux, needSum]
  | cons j t ih =>
      intro v a
      simp only [schedule_tx_aux]
      split
      · simp only [Bool.false_or, if_neg (Bool.false_ne_true)]
        rw [ih]
        simp [needSum]
        ring
      · exact ih v a

/-- The pass schedules a subsequence of the list it was given: jobs are
neither reordered nor revisited. -/
theorem schedule_aux_sublist (ff : Nat → Bool) (now : Nat) (nn : String) :
    ∀ (l : List JobRow) (v : SysState) (a : Int) (p : Bool),
      List.Sublist (schedule_tx_aux ff now nn l v a p).scheduled l := by
  intro l
  induction l with
  | nil => intro v a p; simp [schedule_tx_aux]
  | cons j t ih =>
      intro v a p
      simp only [schedule_tx_aux]
      split
      · split
        · exact List.Sublist.cons j (ih v a true)
        · exact List.Sublist.cons₂ j
            (ih (allocate_and_enqueue_ok v j j.total_cpus_required now nn)
              (a - (j.total_cpus_required : Int)) false)
      · exact List.Sublist.cons j (ih v a p)

/-- Claim C6: the failure-free `schedule()` pass (1) takes the PENDING
jobs sorted ascending by `submit_time` (a permutation of the PENDING
filter); (2) at each position, a job is scheduled if and only if its
requirement `tasks_per_node × cpus_per_task` is at most the remaining
available count accumulated over the *earlier* jobs only, a scheduled job
decrements that count by its requirement, and a skipped job leaves it
untouched so later smaller jobs are still considered; (3) on exit the
remaining count is the initial count minus the total requirement of the
scheduled jobs; (4) the scheduled jobs form a subsequence of the pending
order (no reordering or compaction); and (5) the pass commits without
raising. -/
theorem schedule_fifo_first_fit :
    (∀ (db : Database),
      List.Sorted submitLE (pending_jobs_by_submit_time db)
      ∧ (pending_jobs_by_submit_time db).Perm
          (db.jobs.filter (fun j => j.state == JobState.PENDING)))
    ∧ (∀ (now : Nat) (nn : String) (pre : List JobRow) (j : JobRow)
        (post : List JobRow) (v : SysState) (a : Int),
      (schedule_tx_aux (fun _ => false) now nn (pre ++ j :: post) v a false).scheduled
        = (schedule_tx_aux (fun _ => false) now nn pre v a false).scheduled ++
          (if (j.total_cpus_required : Int)
              ≤ (schedule_tx_aux (fun _ => false) now nn pre v a false).remaining then
            j :: (schedule_tx_aux (fun _ => false) now nn post
              (allocate_and_enqueue_ok
                (schedule_tx_aux (fun _ => false) now nn pre v a false).vstate
                j j.total_cpus_required now nn)
              ((schedule_tx_aux (fun _ => false) now nn pre v a false).remaining
                - (j.total_cpus_required : Int)) false).scheduled
          else
            (schedule_tx_aux (fun _ => false) now nn post
              (schedule_tx_aux (fun _ => false) now nn pre v a false).vstate
              (schedule_tx_aux (fun _ => false) now nn pre v a false).remaining
              false).scheduled))
    ∧ (∀ (now : Nat) (nn : String) (l : List JobRow) (v : SysState) (a : Int),
      (schedule_tx_aux (fun _ => false) now nn l v a false).remaining
        = a - (needSum (schedule_tx_aux (fun _ => false) now nn l v a false).scheduled : Int))
    ∧ (∀ (ff : Nat → Bool) (now : Nat) (nn : String) (l : List JobRow)
        (v : SysState) (a : Int) (p : Bool),
      List.Sublist (schedule_tx_aux ff now nn l v a p).scheduled l)
    ∧ (∀ (s : SysState) (total : Int) (now : Nat) (nn : String),
      (schedule_tx s total (fun _ => false) now nn).raised = false) := by
  refine ⟨?_, ?_, schedule_aux_remaining, schedule_aux_sublist, ?_⟩
  · intro db
    exact ⟨List.sorted_insertionSort submitLE _, List.perm_insertionSort submitLE _⟩
  · intro now nn pre j post v a
    rw [schedule_aux_append now nn pre (j :: post) v a]
    simp only [schedule_tx_aux]
    split
    · simp only [Bool.false_or, if_neg (Bool.false_ne_true)]
    · rfl
  · intro s total now nn
    unfold schedule_tx
    simp [schedule_aux_no_poison]

/-! ## Claim C7 -/

/-- A textbook stale reservation: job 1 RUNNING, its reservation row
unreleased with `allocation_time = 10`, checked at `now = 700` against the
10-minute horizon (threshold 690). -/
def staleDb : Database := { jobs := [jobRunning1], allocations := [allocReserved1] }

/-- Claim C7 is violated by the code: on the stale-reservation state the
query `get_stale_reservations` raises on the undeclared `status` column,
the strategy's template catches the exception and rolls the session back,
and nothing is repaired — the job stays RUNNING with no exit code and the
allocation stays unreleased.  (The strategy body never touches the CPU
cache, so that part of the tick state is trivially unchanged.) -/
theorem stale_reservation_cleanup_broken :
    get_stale_reservations staleDb 690 = Except.error "AttributeError: status"
    ∧ stale_reservation_cleanup_tick staleDb 700 10 = (staleDb, false)
    ∧ staleDb.jobs.map (fun j => j.state) = [JobState.RUNNING]
    ∧ staleDb.jobs.map (fun j => j.exit_code) = [some ""]
    ∧ staleDb.allocations.map (fun a => a.released) = [false] := by
  refine ⟨rfl, rfl, rfl, rfl, rfl⟩

/-! ## Claim C8 -/

/-- Once the session transaction is doomed, it stays doomed for the rest
of the pass. -/
theorem schedule_aux_poisoned_mono (ff : Nat → Bool) (now : Nat) (nn : String) :
    ∀ (l : List JobRow) (v : SysState) (a : Int),
      (schedule_tx_aux ff now nn l v a true).poisoned = true := by
  intro l
  induction l with
  | nil => intro v a; rfl
  | cons j t ih =>
      intro v a
      simp only [schedule_tx_aux, Bool.true_or, if_true]
      split
      · exact ih v a
      · exact ih v a

/-- If the pass attempts a job whose flush fails, the transaction ends
poisoned. -/
theorem schedule_aux_attempt_fail_poisons (ff : Nat → Bool) (now : Nat)
    (nn : String) :
    ∀ (l : List JobRow) (v : SysState) (a : Int) (p : Bool) (jid : Nat),
      jid ∈ (schedule_tx_aux ff now nn l v a p).attempted →
      ff jid = true →
      (schedule_tx_aux ff now nn l v a p).poisoned = true := by
  intro l
  induction l with
  | nil => intro v a p jid hmem _; simp [schedule_tx_aux] at hmem
  | cons j t ih =>
      intro v a p jid hmem hff
      simp only [schedule_tx_aux] at hmem ⊢
      by_cases hfit : (j.total_cpus_required : Int) ≤ a
      · rw [if_pos hfit] at hmem ⊢
        by_cases hpf : (p || ff j.id) = true
        · rw [if_pos hpf] at hmem ⊢
          exact schedule_aux_poisoned_mono ff now nn t v a
        · rw [if_neg hpf] at hmem ⊢
          simp only [List.mem_cons] at hmem
          rcases hmem with hEq | hmem
          · subst hEq
            simp [hff] at hpf
          · exact ih _ _ _ jid hmem hff
      · rw [if_neg hfit] at hmem ⊢
        exact ih v a p jid hmem hff

/-- Claim C8: if the database flush for a job the scheduler attempts to
schedule fails, the single end-of-pass commit raises and the whole session
is rolled back — the durable store afterwards is exactly the store the
pass started from, so that job is still PENDING with no allocation row and
is picked up again on a later tick. -/
theorem schedule_tx_failure_rollback (s : SysState) (total : Int)
    (ff : Nat → Bool) (now : Nat) (nn : String) (jid : Nat)
    (hmem : jid ∈ (schedule_tx s total ff now nn).attempted)
    (hff : ff jid = true) :
    (schedule_tx s total ff now nn).state.db = s.db
    ∧ (schedule_tx s total ff now nn).raised = true := by
  have hmem' : jid ∈ (schedule_tx_aux ff now nn (pending_jobs_by_submit_time s.db)
      s (total - s.cache) false).attempted := by
    unfold schedule_tx at hmem
    by_cases hp : (schedule_tx_aux ff now nn (pending_jobs_by_submit_time s.db)
        s (total - s.cache) false).poisoned
    · simpa [hp] using hmem
    · simpa [hp] using hmem
  have hpois := schedule_aux_attempt_fail_poisons ff now nn
    (pending_jobs_by_submit_time s.db) s (total - s.cache) false jid hmem' hff
  unfold schedule_tx
  rw [if_pos hpois]
  exact ⟨rfl, rfl⟩

/-- Claim C8, witness: job 1 of `state0` is attempted (capacity 4 covers
its need of 2) and its flush fails; the pass leaves the durable store
untouched. -/
theorem schedule_tx_failure_rollback_witness :
    1 ∈ (schedule_tx state0 4 (fun j => j == 1) 10 "node1").attempted
    ∧ ((fun j : Nat => j == 1) 1) = true
    ∧ (schedule_tx state0 4 (fun j => j == 1) 10 "node1").state.db = state0.db :=
  ⟨by decide, by decide,
   (schedule_tx_failure_rollback state0 4 (fun j => j == 1) 10 "node1" 1
      (by decide) (by decide)).1⟩

/-! ## Claim C9 -/

/-- `find?` commutes with a map that does not change the tested key. -/
theorem find?_map_key_preserving (p : JobRow → Bool) (g : JobRow → JobRow)
    (hg : ∀ x, p (g x) = p x) :
    ∀ l : List JobRow, (l.map g).find? p = (l.find? p).map g := by
  intro l
  induction l with
  | nil => rfl
  | cons x t ih =>
      simp only [List.map_cons, List.find?]
      rw [hg x]
      cases h : p x with
      | true => rfl
      | false => simpa [h] using ih

/-- Claim C9: `cancel_job` is idempotent — a job already terminal is
returned untouched, cancelling twice yields exactly the final state of
cancelling once, and an unknown job id raises the not-found error. -/
theorem cancel_idempotent :
    (∀ (db : Database) (jobId now : Nat) (job : JobRow),
      db.jobs.find? (fun j => j.id == jobId) = some job →
      terminalStates.contains job.state = true →
      cancel_job db jobId now = Except.ok db)
    ∧ (∀ (db : Database) (jobId now : Nat) (db' : Database),
      cancel_job db jobId now = Except.ok db' →
      cancel_job db' jobId now = Except.ok db')
    ∧ (∀ (db : Database) (jobId now : Nat),
      db.jobs.find? (fun j => j.id == jobId) = none →
      cancel_job db jobId now = Except.error "JobNotFound") := by
  refine ⟨?_, ?_, ?_⟩
  · intro db jobId now job hfind hterm
    have hmem : job.state ∈ terminalStates := by simpa using hterm
    simp [cancel_job, hfind, hmem]
  · intro db jobId now db' h
    cases hfind : db.jobs.find? (fun j => j.id == jobId) with
    | none =>
        simp only [cancel_job, hfind] at h
        exact absurd h (by simp)
    | some job =>
        simp only [cancel_job, hfind] at h
        have hpj0 := @List.find?_some JobRow (fun j => j.id == jobId) job db.jobs hfind
        have hpj : (job.id == jobId) = true := by simpa using hpj0
        by_cases hterm : terminalStates.contains job.state = true
        · rw [if_pos hterm] at h
          have hdb : db = db' := by simpa using h
          subst hdb
          have hmem : job.state ∈ terminalStates := by simpa using hterm
          simp [cancel_job, hfind, hmem]
        · rw [if_neg hterm] at h
          have hdb' : db' =
              { jobs := db.jobs.map (cancelJobUpdate jobId now),
                allocations := cancelAllocRelease jobId now db.allocations } := by
            have h' := h
            simp only [Except.ok.injEq] at h'
            exact h'.symm
          subst hdb'
          have hmap := find?_map_key_preserving (fun j => j.id == jobId)
            (cancelJobUpdate jobId now)
            (by
              intro x
              unfold cancelJobUpdate
              by_cases hx : (x.id == jobId) = true
              · simp [hx]
              · simp [hx])
            db.jobs
          have hfind' : (db.jobs.map (cancelJobUpdate jobId now)).find?
              (fun j => j.id == jobId) = some (cancelJobUpdate jobId now job) := by
            rw [hmap, hfind]
            rfl
          have hstate : (cancelJobUpdate jobId now job).state = JobState.CANCELLED := by
            simp [cancelJobUpdate, hpj]
          have hterm' : terminalStates.contains
              (cancelJobUpdate jobId now job).state = true := by
            rw [hstate]
            rfl
          simp only [cancel_job, hfind']
          rw [if_pos hterm']
  · intro db jobId now hfind
    simp [cancel_job, hfind]

/-- A completed job, for the idempotence witness. -/
def jobDone1 : JobRow :=
  { jobPending1 with
      state := JobState.COMPLETED, end_time := some 9, exit_code := some "0:0" }

/-- Job 1 after a cancel at time 7. -/
def jobCancelled1 : JobRow :=
  { jobPending1 with
      state := JobState.CANCELLED, end_time := some 7, exit_code := some "-1:15" }

/-- The database produced by cancelling pending job 1 at time 7. -/
def cancelledDb : Database := { jobs := [jobCancelled1], allocations := [] }

/-- Claim C9, witness: a terminal job is untouched, a second cancel
returns the state of the first, an unknown id errors. -/
theorem cancel_idempotent_witness :
    cancel_job { jobs := [jobDone1], allocations := [] } 1 5
        = Except.ok { jobs := [jobDone1], allocations := [] }
    ∧ cancel_job state0.db 1 7 = Except.ok cancelledDb
    ∧ cancel_job cancelledDb 1 7 = Except.ok cancelledDb
    ∧ cancel_job { jobs := [], allocations := [] } 1 5
        = Except.error "JobNotFound" :=
  ⟨cancel_idempotent.1 { jobs := [jobDone1], allocations := [] } 1 5 jobDone1
      (by rfl) (by decide),
   by rfl,
   cancel_idempotent.2.1 state0.db 1 7 cancelledDb (by rfl),
   cancel_idempotent.2.2 { jobs := [], allocations := [] } 1 5 (by rfl)⟩

/-! ## Claim C10 -/

/-- A registered worker advertising zero CPUs. -/
def workerZero : WorkerRecord := { worker_id := "w1", cpus := 0 }

/-- Claim C10, counterexample: with one `worker:*` record advertising
`cpus = 0` and `TOTAL_CPUS = 4`, `ResourceManager.get_total_cpus` returns
the fallback 4 although worker records exist and their advertised sum is
0 — the fallback triggers on a zero *sum*, not only on the absence of
records. -/
theorem total_cpus_fallback_cex :
    rm_get_total_cpus [workerZero] 4 = 4
    ∧ worker_repo_total_cpus [workerZero] = 0
    ∧ rm_get_total_cpus [workerZero] 4 ≠ worker_repo_total_cpus [workerZero] := by
  decide

/-- Claim C10, amended: `total_cpus()` returns the sum of the advertised
`cpus` fields whenever that sum is positive, and falls back to the
configured `TOTAL_CPUS` whenever the sum is zero — in particular when no
worker records exist; the scheduler's own capacity probe returns 0 when no
worker keys exist, and the schedule loop then refuses to dispatch,
returning with the state untouched and nothing scheduled. -/
theorem total_cpus_sum_or_fallback :
    (∀ (ws : List WorkerRecord) (settingsTotal : Nat),
      worker_repo_total_cpus ws ≠ 0 →
      rm_get_total_cpus ws settingsTotal = worker_repo_total_cpus ws)
    ∧ (∀ (ws : List WorkerRecord) (settingsTotal : Nat),
      worker_repo_total_cpus ws = 0 →
      rm_get_total_cpus ws settingsTotal = settingsTotal)
    ∧ (∀ settingsTotal : Nat, rm_get_total_cpus [] settingsTotal = settingsTotal)
    ∧ scheduler_total_cpus_dynamic [] = 0
    ∧ (∀ (s : SysState) (ff : Nat → Bool) (now : Nat) (nn : String),
      (schedule_run s [] ff now nn).state = s
      ∧ (schedule_run s [] ff now nn).scheduledCount = 0) := by
  refine ⟨?_, ?_, fun settingsTotal => rfl, rfl, fun s ff now nn => ⟨rfl, rfl⟩⟩
  · intro ws settingsTotal h
    simp [rm_get_total_cpus, h]
  · intro ws settingsTotal h
    simp [rm_get_total_cpus, h]

/-- Claim C10, witness: one worker advertising 4 CPUs. -/
theorem total_cpus_sum_or_fallback_witness :
    worker_repo_total_cpus [{ worker_id := "w2", cpus := 4 }] ≠ 0
    ∧ rm_get_total_cpus [{ worker_id := "w2", cpus := 4 }] 8
        = worker_repo_total_cpus [{ worker_id := "w2", cpus := 4 }] :=
  ⟨by decide,
   total_cpus_sum_or_fallback.1 [{ worker_id := "w2", cpus := 4 }] 8 (by decide)⟩

end Conductor
